import Mathlib

/-!
Verification of the retrieval-and-orchestration core of the course-materials
RAG system.  The central component present in the repository sources is
`AIGenerator` (`backend/ai_generator.py`): a bounded sequential tool-calling
orchestrator driving an external language model.  We give a shallow embedding
of its data and control flow and prove the specified contracts about it.

Modelling conventions:
* The external language-model client is an oracle `Nat → Except String
  ModelResponse`: the n-th model call (0-based, counted across the whole
  invocation, mirroring a mocked client's side-effect sequence) either raises
  an exception (the `Except.error` case, carrying the message) or returns a
  response.
* Python exceptions are the `Except` monad; `try/except Exception` becomes a
  `match` on the `Except` value.  Attribute/index errors raised by reading
  `response.content[0].text` on an empty content list or a tool-use block are
  modelled as `Except.error` values as well.
* The embedding of `generate_response` returns, together with the final
  answer string, the trace of API requests issued, in order; the number of
  model calls of an execution is the length of that trace.
-/

namespace RagChatbot

/-- A content block of a model response: either a text block or a tool-use
block carrying the tool name, the block id and the (opaque) input payload. -/
inductive ContentBlock where
  | text (s : String)
  | toolUse (name : String) (id : String) (input : String)
  deriving DecidableEq, Repr

/-- A language-model response: a stop reason and a list of content blocks. -/
structure ModelResponse where
  stop_reason : String
  content : List ContentBlock
  deriving DecidableEq, Repr

/-- One tool result entry as built by `AIGenerator._execute_tools`: a dict
with a constant "tool_result" type tag, the originating block id and the
result text. -/
structure ToolResult where
  ty : String
  tool_use_id : String
  content : String
  deriving DecidableEq, Repr

/-- The content of one message of the accumulated conversation: the initial
user query is plain text, an assistant turn carries the response's content
blocks verbatim, and a tool-results turn carries the batch of tool results. -/
inductive MsgContent where
  | text (s : String)
  | blocks (bs : List ContentBlock)
  | toolResults (rs : List ToolResult)
  deriving DecidableEq, Repr

/-- A message of the conversation history: role and content. -/
structure Message where
  role : String
  content : MsgContent
  deriving DecidableEq, Repr

/-- An API request as assembled by `AIGenerator`: message list, system text,
and the optional "tools" / "tool_choice" entries (`none` when the key is
absent from the request). -/
structure ApiRequest where
  messages : List Message
  system : String
  tools : Option (List String)
  tool_choice : Option String
  deriving DecidableEq, Repr

/-- The tool manager: `execute_tool` dispatches a tool call by name with the
opaque input payload and either returns the result text or raises. -/
structure ToolManager where
  execute_tool : String → String → Except String String

/-- The language-model client oracle: behavior of the n-th model call. -/
def Client : Type := Nat → Except String ModelResponse

/-- Fixed system prompt of `AIGenerator` (abbreviated text; only its identity
matters to the contracts). -/
def SYSTEM_PROMPT : String :=
  "You are an AI assistant specialized in course materials and educational content."

/-- Python truthiness of the optional `tools` argument: `None` and the empty
list are falsy. -/
def toolsTruthy : Option (List String) → Bool
  | none => false
  | some l => !l.isEmpty

/-- Python truthiness of the optional `conversation_history` argument:
`None` and the empty string are falsy. -/
def historyTruthy : Option String → Bool
  | none => false
  | some h => !(h == "")

/-- System content construction shared by `generate_response` and
`_fallback_response`: the static prompt, extended with the prior conversation
when a (truthy) history is supplied. -/
def buildSystemContent (conversation_history : Option String) : String :=
  match conversation_history with
  | some h =>
      if h == "" then SYSTEM_PROMPT
      else SYSTEM_PROMPT ++ "\n\nPrevious conversation:\n" ++ h
  | none => SYSTEM_PROMPT

/-- Reading `content_block.text`: succeeds on a text block, raises
(AttributeError) on a tool-use block. -/
def blockText : ContentBlock → Except String String
  | ContentBlock.text s => Except.ok s
  | ContentBlock.toolUse _ _ _ =>
      Except.error "AttributeError: block has no attribute text"

/-- Reading `response.content[0].text`: raises (IndexError) on an empty
content list, otherwise reads the text of the first block. -/
def firstText (resp : ModelResponse) : Except String String :=
  match resp.content with
  | [] => Except.error "IndexError: list index out of range"
  | b :: _ => blockText b

/-- One model call followed by reading the first block's text, as performed
by the no-tool-use paths of the generator. -/
def callText (client : Client) (callIdx : Nat) : Except String String :=
  match client callIdx with
  | Except.error e => Except.error e
  | Except.ok resp => firstText resp

/-- The request assembled by `AIGenerator._execute_round`: tools and
tool-choice "auto" are attached only when `tools` is truthy and the round
number is at most 2 (the latter always holds inside the loop). -/
def mkRoundRequest (messages : List Message) (system : String)
    (tools : Option (List String)) (round_num : Nat) : ApiRequest :=
  if toolsTruthy tools && decide (round_num ≤ 2) then
    { messages := messages, system := system, tools := tools,
      tool_choice := some "auto" }
  else
    { messages := messages, system := system, tools := none,
      tool_choice := none }

/-- Outcome of `AIGenerator._execute_round`: a final text answer, or the
tool-use response to be continued with. -/
inductive RoundOutcome where
  | final (t : String)
  | toolUse (resp : ModelResponse)
  deriving DecidableEq, Repr

/-- Embedding of `AIGenerator._execute_round`: issue one model call with the
accumulated messages, the system content, and the tool definitions; when the
response signals tool use and a tool manager is present, hand the response
back for continuation, otherwise return the first content block's text.
Returns the request issued together with the (fallible) outcome. -/
def execute_round (client : Client) (callIdx : Nat) (messages : List Message)
    (system : String) (tools : Option (List String)) (tool_manager : Option ToolManager)
    (round_num : Nat) : ApiRequest × Except String RoundOutcome :=
  let req := mkRoundRequest messages system tools round_num
  (req,
    match client callIdx with
    | Except.error e => Except.error e
    | Except.ok resp =>
        if resp.stop_reason == "tool_use" && tool_manager.isSome then
          Except.ok (RoundOutcome.toolUse resp)
        else
          match firstText resp with
          | Except.error e => Except.error e
          | Except.ok t => Except.ok (RoundOutcome.final t))

/-- The per-block loop body of `AIGenerator._execute_tools`: for every
tool-use content block, execute the tool through the manager inside a
per-call try/except, substituting the "Tool execution error: " string as the
result when the call raises; non-tool-use blocks contribute nothing.
Calling through an absent manager raises inside the same try and is likewise
converted to an error-string result. -/
def collectToolResults (tool_manager : Option ToolManager) :
    List ContentBlock → List ToolResult
  | [] => []
  | ContentBlock.text _ :: rest => collectToolResults tool_manager rest
  | ContentBlock.toolUse name id input :: rest =>
      let attempt : Except String String :=
        match tool_manager with
        | none => Except.error "AttributeError: NoneType has no attribute execute_tool"
        | some m => m.execute_tool name input
      let entry : ToolResult :=
        match attempt with
        | Except.ok v => { ty := "tool_result", tool_use_id := id, content := v }
        | Except.error e =>
            { ty := "tool_result", tool_use_id := id,
              content := "Tool execution error: " ++ e }
      entry :: collectToolResults tool_manager rest

/-- Embedding of `AIGenerator._execute_tools`: `none` when the response does
not signal tool use or when the batch produced no results, otherwise the
list of tool results in block order. -/
def execute_tools (resp : ModelResponse) (tool_manager : Option ToolManager) :
    Option (List ToolResult) :=
  if resp.stop_reason == "tool_use" then
    let rs := collectToolResults tool_manager resp.content
    if rs.isEmpty then none else some rs
  else none

/-- Embedding of `AIGenerator._execute_final_round`: one model call with the
full message history and system content and deliberately no tools; returns
the request issued and the (fallible) first block's text, the stop reason
being ignored. -/
def execute_final_round (client : Client) (callIdx : Nat)
    (messages : List Message) (system : String) :
    ApiRequest × Except String String :=
  let req : ApiRequest :=
    { messages := messages, system := system, tools := none, tool_choice := none }
  (req, callText client callIdx)

/-- The round loop of `generate_response` (`for round_num in range(1, 3)`),
with the remaining number of rounds as fuel (entered with fuel 2, so the
round number is `2 - k` at fuel `k + 1`); when the fuel is exhausted the
forced synthesis call of `_execute_final_round` is issued.  Returns the
fallible result together with the accumulated request trace; the oracle index
of each call is the number of requests issued so far. -/
def roundLoop (client : Client) (tool_manager : Option ToolManager)
    (system : String) (tools : Option (List String)) :
    Nat → List Message → List ApiRequest →
    Except String String × List ApiRequest
  | 0, messages, trace =>
      let (req, r) := execute_final_round client trace.length messages system
      (r, trace ++ [req])
  | k + 1, messages, trace =>
      let (req, out) :=
        execute_round client trace.length messages system tools tool_manager (2 - k)
      let trace' := trace ++ [req]
      match out with
      | Except.error e => (Except.error e, trace')
      | Except.ok (RoundOutcome.final t) => (Except.ok t, trace')
      | Except.ok (RoundOutcome.toolUse resp) =>
          let messages' := messages ++
            [{ role := "assistant", content := MsgContent.blocks resp.content }]
          match execute_tools resp tool_manager with
          | some rs =>
              roundLoop client tool_manager system tools k
                (messages' ++ [{ role := "user", content := MsgContent.toolResults rs }])
                trace'
          | none =>
              (Except.ok "I encountered an error while processing your request.", trace')

/-- Embedding of `AIGenerator._fallback_response`: one tools-free model call
whose message list holds only the original query, with the conversation
history carried in the system text; any failure of that call (or of reading
its first block's text) yields the fixed apology string. -/
def fallback_response (client : Client) (callIdx : Nat) (query : String)
    (conversation_history : Option String) : ApiRequest × String :=
  let system := buildSystemContent conversation_history
  let req : ApiRequest :=
    { messages := [{ role := "user", content := MsgContent.text query }],
      system := system, tools := none, tool_choice := none }
  (req,
    match callText client callIdx with
    | Except.ok t => t
    | Except.error _ =>
        "I encountered an error processing your request. Please try again.")

/-- Embedding of `AIGenerator.generate_response`: run up to two tool-use
rounds followed by the forced synthesis call; any exception escaping that
sequence is caught at the top level and answered by the single fallback
call.  Total by construction — the embedding returns the answer string and
the full request trace, never an exception. -/
def generate_response (client : Client) (query : String)
    (conversation_history : Option String) (tools : Option (List String))
    (tool_manager : Option ToolManager) : String × List ApiRequest :=
  let system := buildSystemContent conversation_history
  match roundLoop client tool_manager system tools 2
      [{ role := "user", content := MsgContent.text query }] [] with
  | (Except.ok t, trace) => (t, trace)
  | (Except.error _, trace) =>
      let (req, r) := fallback_response client trace.length query conversation_history
      (r, trace ++ [req])

/-! Spec-modelled components.  The repository sources under version control
here contain only `ai_generator.py` and the test suites; the implementations
of `VectorStore`, `DocumentProcessor` and `RAGSystem` are exercised by the
tests but their code is not present.  The following definitions model those
operations from the specification's words. -/

/-- A metadata filter of the content collection, as handed to the embedding
backend: an equality clause on the course title, an equality clause on the
lesson number, or a conjunction of clauses. -/
inductive ChromaFilter where
  | courseEq (title : String)
  | lessonEq (n : Int)
  | conj (clauses : List ChromaFilter)
  deriving Repr

/-- Modelled from the spec: `VectorStore._build_filter` is absent from the
sources (only `test_build_filter_logic` exercises it).  The spec: absent
both arguments, no filter; exactly one present, a single equality clause on
that field; both present, a conjunction of the two equality clauses. -/
def build_filter (course_title : Option String) (lesson_number : Option Int) :
    Option ChromaFilter :=
  match course_title, lesson_number with
  | none, none => none
  | some t, none => some (ChromaFilter.courseEq t)
  | none, some n => some (ChromaFilter.lessonEq n)
  | some t, some n =>
      some (ChromaFilter.conj [ChromaFilter.courseEq t, ChromaFilter.lessonEq n])

/-- A parsed course document of a folder: the parsed course title and the
chunks produced for it by the document processor. -/
structure CourseDoc where
  title : String
  chunks : List String
  deriving DecidableEq, Repr

/-- The persistent store state relevant to folder ingestion: the catalog's
existing course titles and the stored content chunks tagged by course. -/
structure StoreState where
  titles : List String
  chunks : List (String × String)
  deriving DecidableEq, Repr

/-- The empty store. -/
def StoreState.empty : StoreState := { titles := [], chunks := [] }

/-- Modelled from the spec: the per-file body of `RAGSystem.add_course_folder`
(absent from the sources) — a file whose parsed course title already exists
in the catalog is skipped, otherwise the course and its chunks are added and
the counters advanced. -/
def ingestDoc (acc : Nat × Nat × StoreState) (doc : CourseDoc) :
    Nat × Nat × StoreState :=
  let (courses, chunks, st) := acc
  if doc.title ∈ st.titles then (courses, chunks, st)
  else
    (courses + 1, chunks + doc.chunks.length,
      { titles := st.titles ++ [doc.title],
        chunks := st.chunks ++ doc.chunks.map (fun c => (doc.title, c)) })

/-- Modelled from the spec: `RAGSystem.add_course_folder` (absent from the
sources) — with `clear_existing` all stored data is purged first; then every
candidate file of the folder is processed in order with the title-only
idempotency skip.  Returns the counts of courses and chunks added and the
resulting store. -/
def add_course_folder (folder : List CourseDoc) (clear_existing : Bool)
    (st : StoreState) : Nat × Nat × StoreState :=
  let start := if clear_existing then StoreState.empty else st
  folder.foldl ingestDoc (0, 0, start)

/-- Splitting a character sequence into its maximal whitespace-free words
(the accumulator holds the current word reversed). -/
def wordsAux : List Char → List Char → List (List Char)
  | [], cur => if cur.isEmpty then [] else [cur.reverse]
  | c :: rest, cur =>
      if c.isWhitespace then
        if cur.isEmpty then wordsAux rest []
        else cur.reverse :: wordsAux rest []
      else wordsAux rest (c :: cur)

/-- Joining words with single spaces. -/
def joinWords : List String → String
  | [] => ""
  | [w] => w
  | w :: ws => w ++ " " ++ joinWords ws

/-- Modelled from the spec: whitespace normalization of
`DocumentProcessor.chunk_text` (absent from the sources) — all whitespace
runs are collapsed to single spaces, with no leading or trailing whitespace
remaining. -/
def normalizeWhitespace (s : String) : String :=
  joinWords ((wordsAux s.data []).map String.mk)

/-- Greedy packer for the long-text branch of `chunk_text`, modelled from the
spec: sentences are grouped left to right into chunks of at most
`chunk_size` characters (a chunk keeps at least one sentence even when that
sentence alone runs over). -/
def packSentences (chunk_size : Nat) : List String → String → List String
  | [], cur => if cur == "" then [] else [cur]
  | s :: rest, cur =>
      if cur == "" then packSentences chunk_size rest s
      else if (cur ++ " " ++ s).length ≤ chunk_size then
        packSentences chunk_size rest (cur ++ " " ++ s)
      else cur :: packSentences chunk_size rest s

/-- Modelled from the spec: `DocumentProcessor.chunk_text` (absent from the
sources) — normalize whitespace; when the normalized text fits in one chunk
return exactly that text as the single chunk; otherwise split on sentence
boundaries and pack greedily (the overlap refinement of the spec is not
needed by the claims settled here and is omitted from the long branch). -/
def chunk_text (text : String) (chunk_size : Nat) (overlap : Nat) : List String :=
  let normalized := normalizeWhitespace text
  if normalized.length ≤ chunk_size then [normalized]
  else
    let _ := overlap
    packSentences chunk_size
      ((normalized.splitOn ". ").map (fun s => s)) ""

/-! Spec-side characterization of the tool batch, and concrete scenario data
used by counterexamples and witnesses. -/

/-- Whether a content block is a tool-use block. -/
def isToolUseBlock : ContentBlock → Bool
  | ContentBlock.text _ => false
  | ContentBlock.toolUse _ _ _ => true

/-- Spec-side description of the result of one requested tool call (used to
compare the batch builder against the specification): a text block yields no
entry; a tool-use block yields exactly one entry carrying the tool's result,
or the substituted error string when the call raises. -/
def toolResultSpec (m : ToolManager) : ContentBlock → Option ToolResult
  | ContentBlock.text _ => none
  | ContentBlock.toolUse name id input =>
      some { ty := "tool_result", tool_use_id := id,
             content :=
               match m.execute_tool name input with
               | Except.ok v => v
               | Except.error e => "Tool execution error: " ++ e }

/-- A plain text reply. -/
def respTextHello : ModelResponse :=
  { stop_reason := "end_turn", content := [ContentBlock.text "hello"] }

/-- A tool-use reply with a single tool-use block. -/
def respToolUseOne : ModelResponse :=
  { stop_reason := "tool_use",
    content := [ContentBlock.toolUse "search_course_content" "toolu_1" "q"] }

/-- A reply whose stop reason signals tool use but whose content holds no
tool-use block, so that the batch yields zero results. -/
def respToolUseEmpty : ModelResponse :=
  { stop_reason := "tool_use", content := [ContentBlock.text "no tool blocks"] }

/-- A tool manager whose calls all succeed. -/
def tmAlwaysOk : ToolManager :=
  { execute_tool := fun _ _ => Except.ok "search results" }

/-- A tool manager answering tool "a" normally and raising on every other
tool. -/
def tmMixed : ToolManager :=
  { execute_tool := fun name _ =>
      if name == "a" then Except.ok "result a" else Except.error "Tool failed" }

/-- A tool-use reply requesting two tools around an interleaved text block;
with `tmMixed` the first call succeeds and the second raises. -/
def respMixedTools : ModelResponse :=
  { stop_reason := "tool_use",
    content := [ContentBlock.toolUse "a" "i1" "x", ContentBlock.text "mid",
                ContentBlock.toolUse "b" "i2" "y"] }

/-- The tool-result entry produced by executing `respToolUseOne`'s request
through `tmAlwaysOk`. -/
def trSearch : ToolResult :=
  { ty := "tool_result", tool_use_id := "toolu_1",
    content := "search results" }

/-- A client replying with tool use in both rounds and then raising on the
forced synthesis call; a fourth call would succeed. -/
def clientSynthesisRaises : Client := fun n =>
  if n ≤ 1 then Except.ok respToolUseOne
  else if n == 2 then Except.error "APIError" else Except.ok respTextHello

/-- A client replying with tool use in both rounds and then with plain text. -/
def clientTwoToolRounds : Client := fun n =>
  if n ≤ 1 then Except.ok respToolUseOne else Except.ok respTextHello

/-- A client whose every call raises. -/
def clientAllRaise : Client := fun _ => Except.error "boom"

/-- A client replying with the zero-result tool-use response forever. -/
def clientToolUseEmpty : Client := fun _ => Except.ok respToolUseEmpty

/-- A client replying with plain text forever. -/
def clientAllText : Client := fun _ => Except.ok respTextHello

/-- A client replying with tool use on the first call and plain text from
then on. -/
def clientOneToolRound : Client := fun n =>
  if n == 0 then Except.ok respToolUseOne else Except.ok respTextHello

/-! Step lemmas for the round loop, shared by the contract proofs below. -/

/-- When the loop's fuel is exhausted, the forced synthesis call is issued:
one more request with the full message history and no tools. -/
theorem roundLoop_zero (client : Client) (tm : Option ToolManager)
    (system : String) (tools : Option (List String)) (messages : List Message)
    (trace : List ApiRequest) :
    roundLoop client tm system tools 0 messages trace =
      (callText client trace.length,
        trace ++ [{ messages := messages, system := system,
                    tools := none, tool_choice := none }]) := by
  simp [roundLoop, execute_final_round]

/-- A round whose model call raises ends the loop with that exception, after
having issued exactly that one request. -/
theorem roundLoop_succ_error (client : Client) (tm : Option ToolManager)
    (system : String) (tools : Option (List String)) (k : Nat)
    (messages : List Message) (trace : List ApiRequest) (e : String)
    (hc : client trace.length = Except.error e) :
    roundLoop client tm system tools (k + 1) messages trace =
      (Except.error e, trace ++ [mkRoundRequest messages system tools (2 - k)]) := by
  simp [roundLoop, execute_round, hc]

/-- A round whose reply does not continue into tool use (no tool-use stop
reason, or no manager) ends the loop with the first block's text, or with
the exception raised while reading it. -/
theorem roundLoop_succ_text (client : Client) (tm : Option ToolManager)
    (system : String) (tools : Option (List String)) (k : Nat)
    (messages : List Message) (trace : List ApiRequest) (r : ModelResponse)
    (hc : client trace.length = Except.ok r)
    (hnc : (r.stop_reason == "tool_use" && tm.isSome) = false) :
    roundLoop client tm system tools (k + 1) messages trace =
      ((match firstText r with
        | Except.error e => Except.error e
        | Except.ok t => Except.ok t),
        trace ++ [mkRoundRequest messages system tools (2 - k)]) := by
  simp only [roundLoop, execute_round, hc, hnc, Bool.false_eq_true, if_false]
  cases firstText r <;> simp

/-- A round that replies with tool use under a present manager and whose
batch yields results appends the assistant turn and the tool-results turn
and advances to the next round. -/
theorem roundLoop_succ_toolUse (client : Client) (m : ToolManager)
    (system : String) (tools : Option (List String)) (k : Nat)
    (messages : List Message) (trace : List ApiRequest) (r : ModelResponse)
    (rs : List ToolResult)
    (hc : client trace.length = Except.ok r)
    (hs : r.stop_reason = "tool_use")
    (hrs : execute_tools r (some m) = some rs) :
    roundLoop client (some m) system tools (k + 1) messages trace =
      roundLoop client (some m) system tools k
        (messages ++ [{ role := "assistant", content := MsgContent.blocks r.content }]
          ++ [{ role := "user", content := MsgContent.toolResults rs }])
        (trace ++ [mkRoundRequest messages system tools (2 - k)]) := by
  simp [roundLoop, execute_round, hc, hs, hrs]

/-- A round that replies with tool use whose batch yields no results ends
the loop immediately with the generic apology. -/
theorem roundLoop_succ_toolUse_none (client : Client) (m : ToolManager)
    (system : String) (tools : Option (List String)) (k : Nat)
    (messages : List Message) (trace : List ApiRequest) (r : ModelResponse)
    (hc : client trace.length = Except.ok r)
    (hs : r.stop_reason = "tool_use")
    (hrs : execute_tools r (some m) = none) :
    roundLoop client (some m) system tools (k + 1) messages trace =
      (Except.ok "I encountered an error while processing your request.",
        trace ++ [mkRoundRequest messages system tools (2 - k)]) := by
  simp [roundLoop, execute_round, hc, hs, hrs]

/-- A successful loop result is returned unchanged by `generate_response`. -/
theorem generate_response_of_ok (client : Client) (query : String)
    (ch : Option String) (tools : Option (List String))
    (tm : Option ToolManager) (t : String) (trace : List ApiRequest)
    (h : roundLoop client tm (buildSystemContent ch) tools 2
        [{ role := "user", content := MsgContent.text query }] [] =
        (Except.ok t, trace)) :
    generate_response client query ch tools tm = (t, trace) := by
  simp [generate_response, h]

/-- An exception escaping the loop is answered by the fallback call. -/
theorem generate_response_of_error (client : Client) (query : String)
    (ch : Option String) (tools : Option (List String))
    (tm : Option ToolManager) (e : String) (trace : List ApiRequest)
    (h : roundLoop client tm (buildSystemContent ch) tools 2
        [{ role := "user", content := MsgContent.text query }] [] =
        (Except.error e, trace)) :
    generate_response client query ch tools tm =
      ((fallback_response client trace.length query ch).2,
        trace ++ [(fallback_response client trace.length query ch).1]) := by
  simp [generate_response, h]

/-- The loop issues at most `fuel + 1` requests beyond those already in the
trace (one per round plus the forced synthesis call). -/
theorem roundLoop_trace_length_le (client : Client) (tm : Option ToolManager)
    (system : String) (tools : Option (List String)) :
    ∀ (k : Nat) (messages : List Message) (trace : List ApiRequest),
      (roundLoop client tm system tools k messages trace).2.length ≤
        trace.length + k + 1 := by
  intro k
  induction k with
  | zero =>
      intro messages trace
      simp [roundLoop, execute_final_round]
  | succ k ih =>
      intro messages trace
      simp only [roundLoop, execute_round]
      cases hc : client trace.length with
      | error e => simp
      | ok r =>
          by_cases hb : (r.stop_reason == "tool_use" && tm.isSome) = true
          · simp only [hb, if_true]
            cases hrs : execute_tools r tm with
            | none => simp
            | some rs =>
                refine le_trans (ih _ _) ?_
                simp
                omega
          · simp only [Bool.not_eq_true] at hb
            simp only [hb, Bool.false_eq_true, if_false]
            cases firstText r <;> simp

/-- The per-block batch builder agrees with the spec-side description of the
batch. -/
theorem collectToolResults_eq_filterMap (m : ToolManager)
    (l : List ContentBlock) :
    collectToolResults (some m) l = l.filterMap (toolResultSpec m) := by
  induction l with
  | nil => rfl
  | cons b rest ih =>
      cases b with
      | text s => simpa [collectToolResults, toolResultSpec] using ih
      | toolUse name id input =>
          cases hm : m.execute_tool name input <;>
            simp [collectToolResults, toolResultSpec, hm, ih]

/-- The batch has exactly one entry per tool-use block. -/
theorem filterMap_toolResultSpec_length (m : ToolManager)
    (l : List ContentBlock) :
    (l.filterMap (toolResultSpec m)).length =
      (l.filter isToolUseBlock).length := by
  induction l with
  | nil => rfl
  | cons b rest ih =>
      cases b with
      | text s => simpa [toolResultSpec, isToolUseBlock] using ih
      | toolUse name id input =>
          cases hm : m.execute_tool name input <;>
            simp [toolResultSpec, isToolUseBlock, hm, ih]

/-! Claim theorems. -/

/-- C9: implicit resource bound — for every input and every behavior of the
model client and the tool manager, one invocation of `generate_response`
issues at most 4 model calls (at most 2 tool-use rounds, at most 1 forced
synthesis call, at most 1 fallback call); termination holds by construction,
the loop being structurally bounded to two rounds. -/
theorem c9_call_budget (client : Client) (query : String)
    (ch : Option String) (tools : Option (List String))
    (tm : Option ToolManager) :
    (generate_response client query ch tools tm).2.length ≤ 4 := by
  cases h : roundLoop client tm (buildSystemContent ch) tools 2
      [{ role := "user", content := MsgContent.text query }] [] with
  | mk r trace =>
      have hb := roundLoop_trace_length_le client tm (buildSystemContent ch)
        tools 2 [{ role := "user", content := MsgContent.text query }] []
      rw [h] at hb
      simp only [List.length_nil] at hb
      cases r with
      | ok t =>
          rw [generate_response_of_ok client query ch tools tm t trace h]
          show trace.length ≤ 4
          omega
      | error e =>
          rw [generate_response_of_error client query ch tools tm e trace h]
          simp only [List.length_append, List.length_cons, List.length_nil]
          omega

/-- C3: for every tool-use reply with at least one tool-use content block,
the generator executes every requested tool call: the batch equals, entry by
entry and in block order, the spec-side description in which a raising call
contributes the substituted "Tool execution error: " string instead of
aborting the batch; the batch has exactly one entry per tool-use block and
is nonempty, so the round sequence continues to a final answer. -/
theorem c3_tool_error_isolation (m : ToolManager) (resp : ModelResponse)
    (hs : resp.stop_reason = "tool_use")
    (hne : resp.content.filter isToolUseBlock ≠ []) :
    execute_tools resp (some m) =
      some (resp.content.filterMap (toolResultSpec m)) ∧
    (resp.content.filterMap (toolResultSpec m)).length =
      (resp.content.filter isToolUseBlock).length ∧
    resp.content.filterMap (toolResultSpec m) ≠ [] := by
  have hlen := filterMap_toolResultSpec_length m resp.content
  have hne2 : resp.content.filterMap (toolResultSpec m) ≠ [] := by
    intro hnil
    apply hne
    have hz : (resp.content.filter isToolUseBlock).length = 0 := by
      rw [← hlen, hnil]
      rfl
    exact List.eq_nil_of_length_eq_zero hz
  refine ⟨?_, hlen, hne2⟩
  simp [execute_tools, hs, collectToolResults_eq_filterMap,
    List.isEmpty_iff, hne2]

/-- Witness for C3: a reply requesting tools "a" and "b" around a text
block, where "a" succeeds and "b" raises — both calls get exactly one
result entry, the second carrying the substituted error string. -/
theorem c3_witness :
    (execute_tools respMixedTools (some tmMixed) =
      some (respMixedTools.content.filterMap (toolResultSpec tmMixed)) ∧
    (respMixedTools.content.filterMap (toolResultSpec tmMixed)).length =
      (respMixedTools.content.filter isToolUseBlock).length ∧
    respMixedTools.content.filterMap (toolResultSpec tmMixed) ≠ []) ∧
    respMixedTools.content.filterMap (toolResultSpec tmMixed) =
      [{ ty := "tool_result", tool_use_id := "i1", content := "result a" },
       { ty := "tool_result", tool_use_id := "i2",
         content := "Tool execution error: Tool failed" }] :=
  ⟨c3_tool_error_isolation tmMixed respMixedTools rfl (by decide), by decide⟩

/-- C6: the metadata filter construction — no filter when neither the
resolved course title nor the lesson number is supplied, a single equality
clause when exactly one is supplied, and a conjunction of the two equality
clauses when both are. -/
theorem c6_build_filter_shape :
    build_filter none none = none ∧
    (∀ t : String, build_filter (some t) none =
      some (ChromaFilter.courseEq t)) ∧
    (∀ n : Int, build_filter none (some n) =
      some (ChromaFilter.lessonEq n)) ∧
    (∀ (t : String) (n : Int), build_filter (some t) (some n) =
      some (ChromaFilter.conj
        [ChromaFilter.courseEq t, ChromaFilter.lessonEq n])) :=
  ⟨rfl, fun _ => rfl, fun _ => rfl, fun _ _ => rfl⟩

/-- C8: for every input text whose whitespace-normalized form has length at
most the chunk size, `chunk_text` returns exactly one chunk equal to the
normalized input. -/
theorem c8_short_text_single_chunk (text : String)
    (chunk_size overlap : Nat)
    (h : (normalizeWhitespace text).length ≤ chunk_size) :
    chunk_text text chunk_size overlap = [normalizeWhitespace text] := by
  simp [chunk_text, h]

/-- Witness for C8: a short text with an internal whitespace run collapses
to a single normalized chunk. -/
theorem c8_witness :
    (normalizeWhitespace "Short   text.").length ≤ 100 ∧
    chunk_text "Short   text." 100 20 = [normalizeWhitespace "Short   text."] ∧
    normalizeWhitespace "Short   text." = "Short text." :=
  ⟨by decide, c8_short_text_single_chunk "Short   text." 100 20 (by decide),
    by decide⟩

/-- C5: when a round replies with tool use but executing the reply yields
zero tool results, the sequence terminates immediately with the generic
apology and no further model call is issued — at round 1 exactly one call
has been made, at round 2 exactly two. -/
theorem c5_zero_tool_results (client : Client) (query : String)
    (ch : Option String) (tools : Option (List String)) (m : ToolManager) :
    (∀ r1, client 0 = Except.ok r1 → r1.stop_reason = "tool_use" →
      execute_tools r1 (some m) = none →
      generate_response client query ch tools (some m) =
        ("I encountered an error while processing your request.",
         [mkRoundRequest [{ role := "user", content := MsgContent.text query }]
            (buildSystemContent ch) tools 1])) ∧
    (∀ r1 rs1 r2, client 0 = Except.ok r1 → r1.stop_reason = "tool_use" →
      execute_tools r1 (some m) = some rs1 →
      client 1 = Except.ok r2 → r2.stop_reason = "tool_use" →
      execute_tools r2 (some m) = none →
      (generate_response client query ch tools (some m)).1 =
        "I encountered an error while processing your request." ∧
      (generate_response client query ch tools (some m)).2.length = 2) := by
  constructor
  · intro r1 hc1 hs1 hrs1
    have h := roundLoop_succ_toolUse_none client m (buildSystemContent ch)
      tools 1 [{ role := "user", content := MsgContent.text query }] [] r1
      (by simpa using hc1) hs1 hrs1
    rw [generate_response_of_ok client query ch tools (some m) _ _ h]
    simp
  · intro r1 rs1 r2 hc1 hs1 hrs1 hc2 hs2 hrs2
    have h1 := roundLoop_succ_toolUse client m (buildSystemContent ch)
      tools 1 [{ role := "user", content := MsgContent.text query }] [] r1 rs1
      (by simpa using hc1) hs1 hrs1
    have h2 := roundLoop_succ_toolUse_none client m (buildSystemContent ch)
      tools 0
      ([{ role := "user", content := MsgContent.text query }] ++
        [{ role := "assistant", content := MsgContent.blocks r1.content }] ++
        [{ role := "user", content := MsgContent.toolResults rs1 }])
      ([] ++ [mkRoundRequest
        [{ role := "user", content := MsgContent.text query }]
        (buildSystemContent ch) tools (2 - 1)]) r2
      (by simpa using hc2) hs2 hrs2
    have hfull := h1.trans h2
    rw [generate_response_of_ok client query ch tools (some m) _ _ hfull]
    constructor
    · rfl
    · simp

/-- Witness for C5: a tool-use reply carrying no tool-use blocks at round 1
ends the sequence after a single model call with the generic apology. -/
theorem c5_witness :
    clientToolUseEmpty 0 = Except.ok respToolUseEmpty ∧
    respToolUseEmpty.stop_reason = "tool_use" ∧
    execute_tools respToolUseEmpty (some tmAlwaysOk) = none ∧
    generate_response clientToolUseEmpty "q" none (some ["t"])
        (some tmAlwaysOk) =
      ("I encountered an error while processing your request.",
       [mkRoundRequest [{ role := "user", content := MsgContent.text "q" }]
          (buildSystemContent none) (some ["t"]) 1]) :=
  ⟨rfl, rfl, rfl,
    (c5_zero_tool_results clientToolUseEmpty "q" none (some ["t"])
      tmAlwaysOk).1 respToolUseEmpty rfl rfl rfl⟩

/-- C10: with no tool manager supplied, no tool is ever executed — the round
handler never hands back a tool-use continuation (so the tool-execution path
is never entered), and the whole invocation consists of the single round-1
call, answered by its first block's text when that is readable and by the
fallback path otherwise; round 2 and the tool batch never happen. -/
theorem c10_no_manager_no_tools :
    (∀ (client : Client) (callIdx : Nat) (messages : List Message)
       (system : String) (tools : Option (List String)) (round_num : Nat)
       (out : RoundOutcome),
       (execute_round client callIdx messages system tools none
           round_num).2 = Except.ok out →
       ∀ resp, out ≠ RoundOutcome.toolUse resp) ∧
    (∀ (client : Client) (query : String) (ch : Option String)
       (tools : Option (List String)),
       (∀ t, callText client 0 = Except.ok t →
         generate_response client query ch tools none =
           (t, [mkRoundRequest
             [{ role := "user", content := MsgContent.text query }]
             (buildSystemContent ch) tools 1])) ∧
       (∀ e, callText client 0 = Except.error e →
         generate_response client query ch tools none =
           ((fallback_response client 1 query ch).2,
            [mkRoundRequest
              [{ role := "user", content := MsgContent.text query }]
              (buildSystemContent ch) tools 1,
             (fallback_response client 1 query ch).1]))) := by
  constructor
  · intro client callIdx messages system tools round_num out h resp
    cases hc : client callIdx with
    | error e => simp [execute_round, hc] at h
    | ok r =>
        simp only [execute_round, hc, Option.isSome_none, Bool.and_false,
          Bool.false_eq_true, if_false] at h
        cases hf : firstText r with
        | error e => simp [hf] at h
        | ok t =>
            simp [hf] at h
            rw [← h]
            intro hcontr
            exact RoundOutcome.noConfusion hcontr
  · intro client query ch tools
    constructor
    · intro t ht
      cases hc : client 0 with
      | error e => simp [callText, hc] at ht
      | ok r =>
          simp only [callText, hc] at ht
          have h := roundLoop_succ_text client none (buildSystemContent ch)
            tools 1 [{ role := "user", content := MsgContent.text query }] [] r
            (by simpa using hc) (by simp)
          rw [ht] at h
          rw [generate_response_of_ok client query ch tools none _ _ h]
          simp
    · intro e he
      cases hc : client 0 with
      | error e2 =>
          have h := roundLoop_succ_error client none (buildSystemContent ch)
            tools 1 [{ role := "user", content := MsgContent.text query }] []
            e2 (by simpa using hc)
          rw [generate_response_of_error client query ch tools none _ _ h]
          simp
      | ok r =>
          simp only [callText, hc] at he
          have h := roundLoop_succ_text client none (buildSystemContent ch)
            tools 1 [{ role := "user", content := MsgContent.text query }] [] r
            (by simpa using hc) (by simp)
          rw [he] at h
          rw [generate_response_of_error client query ch tools none _ _ h]
          simp

/-- Witness for C10: a round answered by a plain text reply yields a final
outcome, never a tool-use continuation; and with no manager, a tool-use
round-1 reply falls to the fallback path, which here returns the second
call's text. -/
theorem c10_witness :
    (RoundOutcome.final "hello" ≠ RoundOutcome.toolUse respToolUseOne) ∧
    generate_response clientOneToolRound "q" none (some ["t"]) none =
      ((fallback_response clientOneToolRound 1 "q" none).2,
       [mkRoundRequest [{ role := "user", content := MsgContent.text "q" }]
          (buildSystemContent none) (some ["t"]) 1,
        (fallback_response clientOneToolRound 1 "q" none).1]) :=
  ⟨c10_no_manager_no_tools.1 clientAllText 0 [] "" none 1
      (RoundOutcome.final "hello") rfl respToolUseOne,
    (c10_no_manager_no_tools.2 clientOneToolRound "q" none (some ["t"])).2
      "AttributeError: block has no attribute text" rfl⟩

/-- C2: any exception escaping the round sequence is caught at the top
level; the generator then makes exactly one more tools-free model call whose
message list holds only the original query, with the conversation history
carried in the system text; if that call (or reading its reply) also fails,
the fixed apology string is returned.  The embedding returns a plain string
by construction, so no exception ever reaches the caller. -/
theorem c2_top_level_fallback (client : Client) (query : String)
    (ch : Option String) (tools : Option (List String))
    (tm : Option ToolManager) (e : String) (trace0 : List ApiRequest)
    (h : roundLoop client tm (buildSystemContent ch) tools 2
        [{ role := "user", content := MsgContent.text query }] [] =
        (Except.error e, trace0)) :
    (generate_response client query ch tools tm).2 =
      trace0 ++
        [{ messages := [{ role := "user", content := MsgContent.text query }],
           system := buildSystemContent ch, tools := none,
           tool_choice := none }] ∧
    (∀ e2, callText client trace0.length = Except.error e2 →
      (generate_response client query ch tools tm).1 =
        "I encountered an error processing your request. Please try again.") := by
  rw [generate_response_of_error client query ch tools tm e trace0 h]
  constructor
  · rfl
  · intro e2 he2
    simp [fallback_response, he2]

/-- Witness for C2: a client whose every call raises — the round-1 call
fails, one tools-free fallback call with only the original query follows,
that call fails too, and the fixed apology string is returned. -/
theorem c2_witness :
    (generate_response clientAllRaise "q" none (some ["t"])
        (some tmAlwaysOk)).2 =
      [mkRoundRequest [{ role := "user", content := MsgContent.text "q" }]
          (buildSystemContent none) (some ["t"]) 1] ++
        [{ messages := [{ role := "user", content := MsgContent.text "q" }],
           system := buildSystemContent none, tools := none,
           tool_choice := none }] ∧
    (generate_response clientAllRaise "q" none (some ["t"])
        (some tmAlwaysOk)).1 =
      "I encountered an error processing your request. Please try again." := by
  have h := c2_top_level_fallback clientAllRaise "q" none (some ["t"])
    (some tmAlwaysOk) "boom"
    [mkRoundRequest [{ role := "user", content := MsgContent.text "q" }]
      (buildSystemContent none) (some ["t"]) 1] (by rfl)
  exact ⟨h.1, h.2 "boom" (by rfl)⟩

/-- C4: after round 2 completes with the model still replying tool use,
exactly one additional model call is issued — its request carries the full
accumulated message history (query, the two assistant tool-use turns and the
two tool-result turns) and the system prompt but no tool definitions — and
the text of that reply's first content block is the final answer, whatever
its stop reason. -/
theorem c4_forced_synthesis (client : Client) (query : String)
    (ch : Option String) (tools : Option (List String)) (m : ToolManager)
    (r1 r2 r3 : ModelResponse) (rs1 rs2 : List ToolResult) (t : String)
    (rest : List ContentBlock)
    (hc1 : client 0 = Except.ok r1) (hs1 : r1.stop_reason = "tool_use")
    (hrs1 : execute_tools r1 (some m) = some rs1)
    (hc2 : client 1 = Except.ok r2) (hs2 : r2.stop_reason = "tool_use")
    (hrs2 : execute_tools r2 (some m) = some rs2)
    (hc3 : client 2 = Except.ok r3)
    (ht : r3.content = ContentBlock.text t :: rest) :
    generate_response client query ch tools (some m) =
      (t,
       [mkRoundRequest [{ role := "user", content := MsgContent.text query }]
          (buildSystemContent ch) tools 1,
        mkRoundRequest
          [{ role := "user", content := MsgContent.text query },
           { role := "assistant", content := MsgContent.blocks r1.content },
           { role := "user", content := MsgContent.toolResults rs1 }]
          (buildSystemContent ch) tools 2,
        { messages :=
            [{ role := "user", content := MsgContent.text query },
             { role := "assistant", content := MsgContent.blocks r1.content },
             { role := "user", content := MsgContent.toolResults rs1 },
             { role := "assistant", content := MsgContent.blocks r2.content },
             { role := "user", content := MsgContent.toolResults rs2 }],
          system := buildSystemContent ch, tools := none,
          tool_choice := none }]) := by
  have h1 := roundLoop_succ_toolUse client m (buildSystemContent ch) tools 1
    [{ role := "user", content := MsgContent.text query }] [] r1 rs1
    (by simpa using hc1) hs1 hrs1
  have h2 := roundLoop_succ_toolUse client m (buildSystemContent ch) tools 0
    ([{ role := "user", content := MsgContent.text query }] ++
      [{ role := "assistant", content := MsgContent.blocks r1.content }] ++
      [{ role := "user", content := MsgContent.toolResults rs1 }])
    ([] ++ [mkRoundRequest
      [{ role := "user", content := MsgContent.text query }]
      (buildSystemContent ch) tools (2 - 1)]) r2 rs2
    (by simpa using hc2) hs2 hrs2
  have h3 := roundLoop_zero client (some m) (buildSystemContent ch) tools
    (([{ role := "user", content := MsgContent.text query }] ++
      [{ role := "assistant", content := MsgContent.blocks r1.content }] ++
      [{ role := "user", content := MsgContent.toolResults rs1 }]) ++
      [{ role := "assistant", content := MsgContent.blocks r2.content }] ++
      [{ role := "user", content := MsgContent.toolResults rs2 }])
    (([] ++ [mkRoundRequest
      [{ role := "user", content := MsgContent.text query }]
      (buildSystemContent ch) tools (2 - 1)]) ++
      [mkRoundRequest
        ([{ role := "user", content := MsgContent.text query }] ++
          [{ role := "assistant", content := MsgContent.blocks r1.content }] ++
          [{ role := "user", content := MsgContent.toolResults rs1 }])
        (buildSystemContent ch) tools (2 - 0)])
  have hct : callText client 2 = Except.ok t := by
    simp [callText, hc3, firstText, ht, blockText]
  have hfull := (h1.trans h2).trans h3
  simp only [List.nil_append, List.singleton_append, List.cons_append,
    List.length_cons, List.length_nil, List.append_nil,
    Nat.zero_add, Nat.reduceAdd, Nat.reduceSub] at hfull
  rw [hct] at hfull
  rw [generate_response_of_ok client query ch tools (some m) _ _ hfull]

/-- Witness for C4: both rounds reply with the same single-tool request, the
third call answers with plain text "hello" — three calls, the last one
tool-free over the five accumulated messages. -/
theorem c4_witness :
    generate_response clientTwoToolRounds "q" none (some ["t"])
        (some tmAlwaysOk) =
      ("hello",
       [mkRoundRequest [{ role := "user", content := MsgContent.text "q" }]
          (buildSystemContent none) (some ["t"]) 1,
        mkRoundRequest
          [{ role := "user", content := MsgContent.text "q" },
           { role := "assistant",
             content := MsgContent.blocks respToolUseOne.content },
           { role := "user", content := MsgContent.toolResults [trSearch] }]
          (buildSystemContent none) (some ["t"]) 2,
        { messages :=
            [{ role := "user", content := MsgContent.text "q" },
             { role := "assistant",
               content := MsgContent.blocks respToolUseOne.content },
             { role := "user", content := MsgContent.toolResults [trSearch] },
             { role := "assistant",
               content := MsgContent.blocks respToolUseOne.content },
             { role := "user", content := MsgContent.toolResults [trSearch] }],
          system := buildSystemContent none, tools := none,
          tool_choice := none }]) :=
  c4_forced_synthesis clientTwoToolRounds "q" none (some ["t"]) tmAlwaysOk
    respToolUseOne respToolUseOne respTextHello [trSearch] [trSearch]
    "hello" [] rfl rfl rfl rfl rfl rfl rfl rfl

/-- Counterexample to C1 as stated: tools and a manager are supplied, both
rounds reply with tool use and each round's batch produces one tool result,
yet 4 model calls are made, not 3 — the forced synthesis call raises, so the
top-level fallback issues a fourth call. -/
theorem c1_counterexample :
    clientSynthesisRaises 0 = Except.ok respToolUseOne ∧
    clientSynthesisRaises 1 = Except.ok respToolUseOne ∧
    respToolUseOne.stop_reason = "tool_use" ∧
    execute_tools respToolUseOne (some tmAlwaysOk) = some [trSearch] ∧
    clientSynthesisRaises 2 = Except.error "APIError" ∧
    (generate_response clientSynthesisRaises "q" none (some ["t"])
        (some tmAlwaysOk)).2.length = 4 :=
  ⟨rfl, rfl, rfl, rfl, rfl, rfl⟩

/-- C1 (amended): call-count contract of `generate_response` with tools and
a manager supplied and every tool-use round producing at least one result —
a first reply that is a readable plain text completion means exactly 1 model
call, returning that text; one tool-use round followed by a readable plain
text completion means exactly 2 calls; two tool-use rounds followed by a
forced synthesis call that returns a readable reply mean exactly 3 calls,
independent of the synthesis reply's stop reason.  (The amendment adds that
the terminating model call must itself return a readable reply; otherwise
the top-level fallback adds a further call, as the counterexample shows.) -/
theorem c1_call_count_amended (client : Client) (query : String)
    (ch : Option String) (tools : Option (List String)) (m : ToolManager)
    (_htools : toolsTruthy tools = true) :
    (∀ r1 t rest, client 0 = Except.ok r1 →
      r1.stop_reason ≠ "tool_use" →
      r1.content = ContentBlock.text t :: rest →
      (generate_response client query ch tools (some m)).1 = t ∧
      (generate_response client query ch tools (some m)).2.length = 1) ∧
    (∀ r1 rs1 r2 t rest, client 0 = Except.ok r1 →
      r1.stop_reason = "tool_use" →
      execute_tools r1 (some m) = some rs1 →
      client 1 = Except.ok r2 → r2.stop_reason ≠ "tool_use" →
      r2.content = ContentBlock.text t :: rest →
      (generate_response client query ch tools (some m)).1 = t ∧
      (generate_response client query ch tools (some m)).2.length = 2) ∧
    (∀ r1 rs1 r2 rs2 r3 t rest, client 0 = Except.ok r1 →
      r1.stop_reason = "tool_use" →
      execute_tools r1 (some m) = some rs1 →
      client 1 = Except.ok r2 → r2.stop_reason = "tool_use" →
      execute_tools r2 (some m) = some rs2 →
      client 2 = Except.ok r3 →
      r3.content = ContentBlock.text t :: rest →
      (generate_response client query ch tools (some m)).1 = t ∧
      (generate_response client query ch tools (some m)).2.length = 3) := by
  refine ⟨?_, ?_, ?_⟩
  · intro r1 t rest hc1 hns1 hcont
    have hnc : (r1.stop_reason == "tool_use" &&
        (some m : Option ToolManager).isSome) = false := by
      simp [hns1]
    have h := roundLoop_succ_text client (some m) (buildSystemContent ch)
      tools 1 [{ role := "user", content := MsgContent.text query }] [] r1
      (by simpa using hc1) hnc
    have hf : firstText r1 = Except.ok t := by
      simp [firstText, hcont, blockText]
    rw [hf] at h
    rw [generate_response_of_ok client query ch tools (some m) _ _ h]
    exact ⟨rfl, rfl⟩
  · intro r1 rs1 r2 t rest hc1 hs1 hrs1 hc2 hns2 hcont
    have h1 := roundLoop_succ_toolUse client m (buildSystemContent ch)
      tools 1 [{ role := "user", content := MsgContent.text query }] [] r1 rs1
      (by simpa using hc1) hs1 hrs1
    have hnc : (r2.stop_reason == "tool_use" &&
        (some m : Option ToolManager).isSome) = false := by
      simp [hns2]
    have h2 := roundLoop_succ_text client (some m) (buildSystemContent ch)
      tools 0
      ([{ role := "user", content := MsgContent.text query }] ++
        [{ role := "assistant", content := MsgContent.blocks r1.content }] ++
        [{ role := "user", content := MsgContent.toolResults rs1 }])
      ([] ++ [mkRoundRequest
        [{ role := "user", content := MsgContent.text query }]
        (buildSystemContent ch) tools (2 - 1)]) r2
      (by simpa using hc2) hnc
    have hf : firstText r2 = Except.ok t := by
      simp [firstText, hcont, blockText]
    rw [hf] at h2
    have hfull := h1.trans h2
    rw [generate_response_of_ok client query ch tools (some m) _ _ hfull]
    exact ⟨rfl, rfl⟩
  · intro r1 rs1 r2 rs2 r3 t rest hc1 hs1 hrs1 hc2 hs2 hrs2 hc3 hcont
    have h1 := roundLoop_succ_toolUse client m (buildSystemContent ch)
      tools 1 [{ role := "user", content := MsgContent.text query }] [] r1 rs1
      (by simpa using hc1) hs1 hrs1
    have h2 := roundLoop_succ_toolUse client m (buildSystemContent ch)
      tools 0
      ([{ role := "user", content := MsgContent.text query }] ++
        [{ role := "assistant", content := MsgContent.blocks r1.content }] ++
        [{ role := "user", content := MsgContent.toolResults rs1 }])
      ([] ++ [mkRoundRequest
        [{ role := "user", content := MsgContent.text query }]
        (buildSystemContent ch) tools (2 - 1)]) r2 rs2
      (by simpa using hc2) hs2 hrs2
    have h3 := roundLoop_zero client (some m) (buildSystemContent ch) tools
      (([{ role := "user", content := MsgContent.text query }] ++
        [{ role := "assistant", content := MsgContent.blocks r1.content }] ++
        [{ role := "user", content := MsgContent.toolResults rs1 }]) ++
        [{ role := "assistant", content := MsgContent.blocks r2.content }] ++
        [{ role := "user", content := MsgContent.toolResults rs2 }])
      (([] ++ [mkRoundRequest
        [{ role := "user", content := MsgContent.text query }]
        (buildSystemContent ch) tools (2 - 1)]) ++
        [mkRoundRequest
          ([{ role := "user", content := MsgContent.text query }] ++
            [{ role := "assistant", content := MsgContent.blocks r1.content }] ++
            [{ role := "user", content := MsgContent.toolResults rs1 }])
          (buildSystemContent ch) tools (2 - 0)])
    have hct : callText client 2 = Except.ok t := by
      simp [callText, hc3, firstText, hcont, blockText]
    have hfull := (h1.trans h2).trans h3
    simp only [List.nil_append, List.singleton_append, List.cons_append,
      List.length_cons, List.length_nil, List.append_nil,
      Nat.zero_add, Nat.reduceAdd, Nat.reduceSub] at hfull
    rw [hct] at hfull
    rw [generate_response_of_ok client query ch tools (some m) _ _ hfull]
    exact ⟨rfl, rfl⟩

/-- Witness for C1 (amended): two tool-use rounds each producing one result
followed by a successful synthesis — exactly 3 calls and the synthesis text
is returned. -/
theorem c1_witness :
    toolsTruthy (some ["t"]) = true ∧
    (generate_response clientTwoToolRounds "q" none (some ["t"])
        (some tmAlwaysOk)).1 = "hello" ∧
    (generate_response clientTwoToolRounds "q" none (some ["t"])
        (some tmAlwaysOk)).2.length = 3 := by
  have h := (c1_call_count_amended clientTwoToolRounds "q" none (some ["t"])
      tmAlwaysOk rfl).2.2 respToolUseOne [trSearch] respToolUseOne [trSearch]
      respTextHello "hello" [] rfl rfl rfl rfl rfl rfl rfl rfl
  exact ⟨rfl, h.1, h.2⟩

/-- Ingestion only ever grows the set of catalog titles. -/
theorem foldl_ingest_mem (folder : List CourseDoc) :
    ∀ (acc : Nat × Nat × StoreState) (x : String),
      x ∈ acc.2.2.titles → x ∈ (folder.foldl ingestDoc acc).2.2.titles := by
  induction folder with
  | nil => intro acc x hx; simpa using hx
  | cons d rest ih =>
      intro acc x hx
      obtain ⟨c, k, st⟩ := acc
      simp only [List.foldl_cons]
      apply ih
      by_cases hd : d.title ∈ st.titles
      · simpa [ingestDoc, hd] using hx
      · simp only [ingestDoc, hd, if_false]
        simp only at hx
        simp [hx]

/-- After ingesting a folder, every document's title is in the catalog. -/
theorem foldl_ingest_docs_mem (folder : List CourseDoc) :
    ∀ (acc : Nat × Nat × StoreState) (d : CourseDoc), d ∈ folder →
      d.title ∈ (folder.foldl ingestDoc acc).2.2.titles := by
  induction folder with
  | nil => intro acc d hd; cases hd
  | cons e rest ih =>
      intro acc d hd
      obtain ⟨c, k, st⟩ := acc
      rcases List.mem_cons.mp hd with heq | hmem
      · subst heq
        simp only [List.foldl_cons]
        apply foldl_ingest_mem
        by_cases he : d.title ∈ st.titles
        · simp [ingestDoc, he]
        · simp [ingestDoc, he]
      · simp only [List.foldl_cons]
        exact ih _ d hmem

/-- Ingesting a folder whose every title already exists in the catalog is a
complete no-op: nothing is counted, nothing is stored. -/
theorem foldl_ingest_skip (folder : List CourseDoc) :
    ∀ (c k : Nat) (st : StoreState),
      (∀ d ∈ folder, d.title ∈ st.titles) →
      folder.foldl ingestDoc (c, k, st) = (c, k, st) := by
  induction folder with
  | nil => intro c k st _; rfl
  | cons e rest ih =>
      intro c k st h
      have he : e.title ∈ st.titles := h e (List.mem_cons_self e rest)
      simp only [List.foldl_cons, ingestDoc, he, if_true]
      exact ih c k st (fun d hd => h d (List.mem_cons_of_mem e hd))

/-- Ingestion never records the same title twice: catalog title lists stay
duplicate-free. -/
theorem foldl_ingest_nodup (folder : List CourseDoc) :
    ∀ (c k : Nat) (st : StoreState), st.titles.Nodup →
      (folder.foldl ingestDoc (c, k, st)).2.2.titles.Nodup := by
  induction folder with
  | nil => intro c k st h; simpa using h
  | cons e rest ih =>
      intro c k st h
      by_cases he : e.title ∈ st.titles
      · simp only [List.foldl_cons, ingestDoc, he, if_true]
        exact ih c k st h
      · simp only [List.foldl_cons, ingestDoc, he, if_false]
        apply ih
        simp [List.nodup_append, h, he]

/-- C7: folder ingestion is idempotent by course title — after one pass with
`clear_existing = false` a second pass on the same folder adds 0 courses and
0 chunks and leaves the store untouched, each course having been recorded at
most once (title lists stay duplicate-free); with `clear_existing = true`
all stored data is purged first and ingestion restarts from the empty
store. -/
theorem c7_folder_idempotent (folder : List CourseDoc) (st : StoreState) :
    add_course_folder folder false
        (add_course_folder folder false st).2.2 =
      (0, 0, (add_course_folder folder false st).2.2) ∧
    (st.titles.Nodup →
      (add_course_folder folder false st).2.2.titles.Nodup) ∧
    add_course_folder folder true st =
      add_course_folder folder false StoreState.empty := by
  refine ⟨?_, ?_, ?_⟩
  · show folder.foldl ingestDoc
      (0, 0, (add_course_folder folder false st).2.2) =
      (0, 0, (add_course_folder folder false st).2.2)
    apply foldl_ingest_skip
    intro d hd
    show d.title ∈ (folder.foldl ingestDoc (0, 0, st)).2.2.titles
    exact foldl_ingest_docs_mem folder (0, 0, st) d hd
  · intro h
    exact foldl_ingest_nodup folder 0 0 st h
  · rfl

/-- Witness for C7: one course with two chunks — the first pass adds
(1, 2), the duplicate-free catalog holds exactly that title, and the second
pass adds nothing. -/
theorem c7_witness :
    (add_course_folder [{ title := "A", chunks := ["c1", "c2"] }] false
        StoreState.empty =
      (1, 2, { titles := ["A"], chunks := [("A", "c1"), ("A", "c2")] })) ∧
    (add_course_folder [{ title := "A", chunks := ["c1", "c2"] }] false
        (add_course_folder [{ title := "A", chunks := ["c1", "c2"] }] false
          StoreState.empty).2.2 =
      (0, 0, (add_course_folder [{ title := "A", chunks := ["c1", "c2"] }]
        false StoreState.empty).2.2)) ∧
    (add_course_folder [{ title := "A", chunks := ["c1", "c2"] }] false
        StoreState.empty).2.2.titles.Nodup :=
  ⟨rfl,
    (c7_folder_idempotent [{ title := "A", chunks := ["c1", "c2"] }]
      StoreState.empty).1,
    (c7_folder_idempotent [{ title := "A", chunks := ["c1", "c2"] }]
      StoreState.empty).2.1 List.nodup_nil⟩

end RagChatbot
